import Mathlib

/-!
Verification of the vonage-video-server repository.

This file gives a shallow embedding of the two source files:

* `src/server.py` — a FastAPI server exposing session creation, session
  lookup, token generation and a health endpoint, built on a Vonage video
  platform client.  Calls to the platform are modelled by a record of
  functions (`Vonage`) so that theorems quantify over every possible
  platform behaviour; HTTP handler outcomes are values of `HttpResult`.

* `src/app.py` — a Streamlit client whose embedded JavaScript manages a
  meeting room: chat over the signalling channel, a participants roster
  grid with a placeholder, and a camera/screen-share display toggle.  The
  DOM state touched by that code is embedded as explicit records, and each
  event handler (button click, platform callback) becomes a state
  transformer.  An uncaught JavaScript `ReferenceError` (the handlers
  reference an undeclared `screenPlaceholder` identifier) is modelled by a
  sticky `crashed` flag: statements of a callback after the throwing
  statement do not execute.
-/

namespace VonageVideo

/-! ## Platform model (the Vonage client used by `src/server.py`) -/

/-- Outcome of a call to the external Vonage video platform: either a value
or a raised exception carrying a message. -/
inductive PlatformResult (α : Type) where
  | ok (value : α)
  | error (message : String)
  deriving DecidableEq

/-- `vonage_video.SessionOptions` as used by the server. -/
structure SessionOptions where
  media_mode : String
  deriving DecidableEq

/-- `vonage_video.TokenOptions` as used by the server: `data` is optional
(`get_video_session_info` omits it, `generate_user_access_token` passes a
`username=...` string). -/
structure TokenOptions where
  session_id : String
  role : String
  data : Option String
  deriving DecidableEq

/-- The Vonage client `client.video` surface the server calls into,
abstracted as functions from request options to a platform outcome. -/
structure Vonage where
  create_session : SessionOptions → PlatformResult String
  generate_client_token : TokenOptions → PlatformResult String

/-- The environment-derived configuration the handlers read
(`VONAGE_API_KEY`, `VONAGE_APPLICATION_ID`). -/
structure VonageConfig where
  VONAGE_API_KEY : String
  VONAGE_APPLICATION_ID : String
  deriving DecidableEq

/-! ## `src/server.py` definitions -/

/-- `create_default_video_session` (server.py lines 95–107): asks the
platform for a session with `media_mode="routed"`; returns the new session
id, or `None` when the platform call raises. -/
def create_default_video_session (client : Vonage) : Option String :=
  match client.create_session { media_mode := "routed" } with
  | .ok session_id => some session_id
  | .error _ => none

/-- The server's module-level mutable state: the single global
`DEFAULT_SESSION_ID` (server.py line 112). -/
structure ServerState where
  DEFAULT_SESSION_ID : Option String
  deriving DecidableEq

/-- Module initialisation (server.py line 112): the one and only assignment
to `DEFAULT_SESSION_ID` in the program. -/
def startupServerState (client : Vonage) : ServerState :=
  { DEFAULT_SESSION_ID := create_default_video_session client }

/-- Response model `VideoSessionResponse`. -/
structure VideoSessionResponse where
  session_id : String
  api_key : String
  application_id : String
  created_at : Option String
  deriving DecidableEq

/-- Response model `UserTokenResponse`. -/
structure UserTokenResponse where
  token : String
  username : String
  session_id : String
  role : String
  deriving DecidableEq

/-- The `environment_info` dictionary built by the health handler; its five
keys are fixed in the source, so it is embedded as a record of the five
string values. -/
structure EnvironmentInfo where
  api_key_configured : String
  application_id_configured : String
  private_key_exists : String
  default_session_available : String
  vonage_client_status : String
  deriving DecidableEq

/-- Response model `ApplicationHealthResponse`. -/
structure ApplicationHealthResponse where
  status : String
  timestamp : String
  environment_info : EnvironmentInfo
  uptime : String
  deriving DecidableEq

/-- Request model `CreateSessionRequest` (server.py lines 146–149): declared
in the source with a single `media_mode` field, but referenced by no route
handler. -/
structure CreateSessionRequest where
  media_mode : String
  deriving DecidableEq

/-- Result of an HTTP handler: a successful response value, or an
`HTTPException` with a status code and detail string. -/
inductive HttpResult (α : Type) where
  | ok (value : α)
  | httpError (status_code : Nat) (detail : String)
  deriving DecidableEq

/-- `POST /api/sessions/create` handler `create_new_video_session`
(server.py lines 182–202).  It calls `create_default_video_session`; on a
platform failure that helper returns `None` and the
`VideoSessionResponse(session_id=None, ...)` construction raises a
validation error, caught by the `except` into a 500.  The handler body
contains no assignment to the global `DEFAULT_SESSION_ID` (and no `global`
declaration), so the server state is returned unchanged. -/
def create_new_video_session (client : Vonage) (cfg : VonageConfig) (now : String)
    (st : ServerState) : HttpResult VideoSessionResponse × ServerState :=
  match create_default_video_session client with
  | some new_session_id =>
      (.ok { session_id := new_session_id,
             api_key := cfg.VONAGE_API_KEY,
             application_id := cfg.VONAGE_APPLICATION_ID,
             created_at := some now }, st)
  | none =>
      (.httpError 500 "Session creation failed: session_id must be a string", st)

/-- The FastAPI route for `POST /api/sessions/create` declares no request
parameters (`async def create_new_video_session():`), so whatever body a
client sends — including a `media_mode` field — is discarded before the
handler body runs. -/
def handleCreateSessionRequest (client : Vonage) (cfg : VonageConfig) (now : String)
    (st : ServerState) (_requestBody : CreateSessionRequest) :
    HttpResult VideoSessionResponse × ServerState :=
  create_new_video_session client cfg now st

/-- `GET /api/sessions/{session_id}` handler `get_video_session_info`
(server.py lines 205–226): validates the id by attempting a trial token
mint; any platform exception whatsoever is caught and mapped to a 404. -/
def get_video_session_info (client : Vonage) (cfg : VonageConfig)
    (session_id : String) : HttpResult VideoSessionResponse :=
  match client.generate_client_token
      { session_id := session_id, role := "publisher", data := none } with
  | .ok _ =>
      .ok { session_id := session_id,
            api_key := cfg.VONAGE_API_KEY,
            application_id := cfg.VONAGE_APPLICATION_ID,
            created_at := none }
  | .error _ => .httpError 404 "Video session not found or invalid"

/-- Python truthiness of an `Optional[str]`: `None` and `""` are falsy. -/
def pyTruthyOptStr : Option String → Bool
  | none => false
  | some s => !(s == "")

/-- `GET /api/tokens/generate` handler `generate_user_access_token`
(server.py lines 229–269).  `target_session_id = session_id or
DEFAULT_SESSION_ID` uses Python truthiness (so an empty string also falls
back); `if not target_session_id` raises the 500 before any platform call.
Otherwise the platform mints a token bound to `target_session_id` with
`data = "username=<username>"`; a platform exception maps to a 500. -/
def generate_user_access_token (client : Vonage) (username : String)
    (session_id : Option String) (role : String) (st : ServerState) :
    HttpResult UserTokenResponse :=
  let target_session_id :=
    if pyTruthyOptStr session_id then session_id else st.DEFAULT_SESSION_ID
  match target_session_id with
  | none => .httpError 500 "No video session available"
  | some sid =>
    if sid == "" then .httpError 500 "No video session available"
    else
      match client.generate_client_token
          { session_id := sid, role := role,
            data := some ("username=" ++ username) } with
      | .ok access_token =>
          .ok { token := access_token, username := username,
                session_id := sid, role := role }
      | .error e => .httpError 500 ("Token generation failed: " ++ e)

/-- The state read by the health handler (server.py lines 272–300):
configuration strings, the result of `os.path.exists` on the private key
path, the default session pointer, and whether the module-level client
object is set. -/
structure HealthEnv where
  VONAGE_API_KEY : String
  VONAGE_APPLICATION_ID : String
  private_key_file_exists : Bool
  DEFAULT_SESSION_ID : Option String
  client_initialized : Bool
  deriving DecidableEq

/-- `GET /api/health` handler `get_application_health_status` (server.py
lines 272–300).  The `try` body only formats strings and queries
`os.path.exists`, all total, so the `except` branch (a 500) is
unreachable: the handler always returns a 200 response whose `status`
field is the constant `"healthy"`, with every check outcome encoded inside
`environment_info`. -/
def get_application_health_status (env : HealthEnv) (now : String) :
    HttpResult ApplicationHealthResponse :=
  .ok { status := "healthy",
        timestamp := now,
        environment_info :=
          { api_key_configured := if env.VONAGE_API_KEY == "" then "No" else "Yes",
            application_id_configured :=
              if env.VONAGE_APPLICATION_ID == "" then "No" else "Yes",
            private_key_exists :=
              if env.private_key_file_exists then "True" else "False",
            default_session_available :=
              if pyTruthyOptStr env.DEFAULT_SESSION_ID then "Yes" else "No",
            vonage_client_status :=
              if env.client_initialized then "Initialized" else "Failed" },
        uptime := "available" }

/-! ### Concrete platform instances used to evaluate the handlers -/

/-- A platform on which every call succeeds. -/
def platformOk : Vonage :=
  { create_session := fun _ => .ok "s1",
    generate_client_token := fun _ => .ok "tok" }

/-- A platform on which every call raises. -/
def platformDown : Vonage :=
  { create_session := fun _ => .error "boom",
    generate_client_token := fun _ => .error "boom" }

/-- A platform that only honours `media_mode = "routed"` session requests,
agreeing with `platformOk` exactly there. -/
def platformRoutedOnly : Vonage :=
  { create_session := fun o => if o.media_mode == "routed" then .ok "s1" else .error "bad mode",
    generate_client_token := fun _ => .ok "tok" }

/-- A fixed configuration for concrete evaluations. -/
def serverCfg : VonageConfig :=
  { VONAGE_API_KEY := "key", VONAGE_APPLICATION_ID := "app" }

/-! ## `src/app.py` client embedding

The meeting-page JavaScript keeps its state in the DOM and in two global
publisher variables.  Each records below names exactly the elements and
globals the handlers under verification touch. -/

/-- One rendered chat transcript entry, as appended by `displayMessage`
(app.py lines 648–670): the sender label, the message text, and the
`isLocal` flag that selects the local (green, right-aligned) styling. -/
structure ChatMessage where
  sender : String
  text : String
  isLocal : Bool
  deriving DecidableEq

/-- The parsed payload of a `chat` signal: `{sender, text}`. -/
structure ChatPayload where
  sender : String
  text : String
  deriving DecidableEq

/-- Chat-relevant page state: the transcript (children of the `messages`
div, in order), the `chatInput` field value, and the record of payloads
handed to `session.signal` (the network calls made). -/
structure ChatState where
  transcript : List ChatMessage
  chatInput : String
  signalsSent : List ChatPayload
  deriving DecidableEq

/-- Outcome the signalling relay reports to the `session.signal`
completion callback. -/
inductive SignalResult where
  | ok
  | error (message : String)
  deriving DecidableEq

/-- JavaScript `String.prototype.trim`: strip leading and trailing
whitespace. -/
def jsTrim (s : String) : String :=
  ⟨((s.data.dropWhile Char.isWhitespace).reverse.dropWhile
      Char.isWhitespace).reverse⟩

/-- `displayMessage(sender, message, isLocal)` (app.py lines 648–670):
appends one entry to the `messages` div. -/
def displayMessage (sender message : String) (isLocal : Bool) (st : ChatState) :
    ChatState :=
  { st with transcript :=
      st.transcript ++ [{ sender := sender, text := message, isLocal := isLocal }] }

/-- `sendMessage(session)` (app.py lines 672–698): trims the input; an
empty result returns before any `session.signal` call.  Otherwise the
payload is signalled; the completion callback shows a SYSTEM line on
error, and on success displays the message locally (tagged local) and
clears the input — no echo is awaited. -/
def sendMessage (username : String) (relay : SignalResult) (st : ChatState) :
    ChatState :=
  let message := jsTrim st.chatInput
  if message == "" then st
  else
    let st1 : ChatState :=
      { st with signalsSent :=
          st.signalsSent ++ [{ sender := username, text := message }] }
    match relay with
    | .error e =>
        displayMessage "SYSTEM" ("Failed to send message: " ++ e) false st1
    | .ok =>
        { displayMessage username message true st1 with chatInput := "" }

/-- The `session.on('signal:chat')` handler (app.py lines 869–881): a
signal whose originating connection id equals the local connection id is
discarded; otherwise the JSON payload is parsed (`none` models a
`JSON.parse` failure, which is caught and logged) and displayed tagged
non-local. -/
def onSignalChat (localConnectionId fromConnectionId : String)
    (payload : Option ChatPayload) (st : ChatState) : ChatState :=
  if fromConnectionId == localConnectionId then st
  else
    match payload with
    | some data => displayMessage data.sender data.text false st
    | none => st

/-! ### Roster grid (`streamCreated` / `streamDestroyed` handlers) -/

/-- Roster-relevant page state: the stream ids of the video containers in
the `subscribers` grid, in arrival order, and whether the
`participants-placeholder` element is still in the document. -/
structure RosterState where
  subscribers : List String
  placeholderPresent : Bool
  deriving DecidableEq

/-- Page-load roster state: empty grid containing only the placeholder. -/
def initialRosterState : RosterState :=
  { subscribers := [], placeholderPresent := true }

/-- A platform roster event delivered while connected. -/
inductive RoomEvent where
  | streamCreated (streamId : String)
  | streamDestroyed (streamId : String)
  deriving DecidableEq

/-- `session.on('streamCreated')` (app.py lines 901–937): removes the
placeholder element if it is still present, then appends a
`stream-<id>` video container to the grid. -/
def onStreamCreated (streamId : String) (st : RosterState) : RosterState :=
  { st with placeholderPresent := false,
            subscribers := st.subscribers ++ [streamId] }

/-- `session.on("streamDestroyed")` (app.py lines 939–945): removes the
`stream-<id>` container if it exists (`document.getElementById` finds the
first match; a missing element is a no-op). -/
def onStreamDestroyed (streamId : String) (st : RosterState) : RosterState :=
  { st with subscribers := st.subscribers.erase streamId }

/-- Dispatch one roster event. -/
def processRoomEvent (st : RosterState) : RoomEvent → RosterState
  | .streamCreated id => onStreamCreated id st
  | .streamDestroyed id => onStreamDestroyed id st

/-- Process a sequence of roster events in delivery order. -/
def processRoomEvents (events : List RoomEvent) (st : RosterState) : RosterState :=
  events.foldl processRoomEvent st

/-- Whether a sequence contains at least one stream-created event. -/
def hasStreamCreated (events : List RoomEvent) : Bool :=
  events.any fun e =>
    match e with
    | .streamCreated _ => true
    | .streamDestroyed _ => false

/-! ### Screen-share toggle -/

/-- The display-related DOM state the screen-share code manipulates:
the inline `display` styles of the `screen-share-container`,
`main-publisher` and `mini-self-video` elements (initial values come from
the page CSS), whether the dynamically created `screenPublisherDiv`
exists, and whether the camera `publisher` element currently sits inside
the `mini-publisher` container (otherwise it is in `main-publisher`). -/
structure RoomDom where
  containerDisplay : String
  mainPublisherDisplay : String
  miniSelfDisplay : String
  screenDivPresent : Bool
  publisherInMini : Bool
  deriving DecidableEq

/-- Page-load DOM: the screen container and mini self-view are hidden by
CSS (`display: none`), the main publisher div is a normally rendered block
element, no screen div exists, and the camera element is in the main
display. -/
def initialRoomDom : RoomDom :=
  { containerDisplay := "none", mainPublisherDisplay := "block",
    miniSelfDisplay := "none", screenDivPresent := false,
    publisherInMini := false }

/-- The screen-share machine state: the DOM, the global `screenPublisher`
variable (identified by a numeric id when non-null), whether a screen
stream is currently published to the session, the toggle button's
`disabled` flag, and a sticky flag recording that a callback threw an
uncaught `ReferenceError` (the handlers reference `screenPlaceholder`,
which is declared nowhere in the page). -/
structure ScreenShareState where
  dom : RoomDom
  screenPublisher : Option Nat
  screenPublished : Bool
  btnDisabled : Bool
  crashed : Bool
  deriving DecidableEq

/-- Page-load screen-share state. -/
def initialScreenShareState : ScreenShareState :=
  { dom := initialRoomDom, screenPublisher := none, screenPublished := false,
    btnDisabled := false, crashed := false }

/-- The environment of one toggle-on attempt: the capability-check
response, the outcome `OT.initPublisher` reports to its callback, the
outcome `session.publish` reports to its callback, and the identity of the
publisher object `OT.initPublisher` returns. -/
structure ScreenEnv where
  supported : Bool
  extensionRequired : Bool
  initError : Option String
  publishError : Option String
  publisherId : Nat
  deriving DecidableEq

/-- `initAndPublishScreen(session, btn)` (app.py lines 701–787).  Entry
statements: show the screen container (`display:'block'`), hide the main
publisher, show the mini self-view, create and append
`screenPublisherDiv`, and move the camera element into the mini
container.  `OT.initPublisher` returns the new publisher (assigned to the
global) and reports to its callback:

* init error — the callback nulls the global and re-enables the button,
  then throws a `ReferenceError` at the undeclared `screenPlaceholder`
  identifier, so its remaining statements (restoring the container's
  display and removing the screen div) never execute;
* init success, publish error — the publish callback re-enables the
  button, destroys and nulls the publisher, then throws the same
  `ReferenceError` before its container/div cleanup statements;
* publish success — the button is re-enabled and relabelled and the screen
  stream is live. -/
def initAndPublishScreen (env : ScreenEnv) (st : ScreenShareState) :
    ScreenShareState :=
  let dom := { st.dom with
    containerDisplay := "block",
    mainPublisherDisplay := "none",
    miniSelfDisplay := "block",
    screenDivPresent := true,
    publisherInMini := true }
  match env.initError with
  | some _ =>
      { st with dom := dom, screenPublisher := none,
                btnDisabled := false, crashed := true }
  | none =>
      let st1 : ScreenShareState :=
        { st with dom := dom, screenPublisher := some env.publisherId }
      match env.publishError with
      | some _ =>
          { st1 with btnDisabled := false, screenPublisher := none,
                     screenPublished := false, crashed := true }
      | none =>
          { st1 with btnDisabled := false, screenPublished := true }

/-- `toggleScreenShare(session)` (app.py lines 790–837).  When a screen
publisher exists: unpublish and destroy it, null the global, hide the
screen container and mini self-view, show the main publisher, move the
camera element back, and remove the screen div.  Otherwise: disable the
button, run the capability check — unsupported or extension-required
re-enables the button and stops; a passing check proceeds to
`initAndPublishScreen`. -/
def toggleScreenShare (env : ScreenEnv) (st : ScreenShareState) :
    ScreenShareState :=
  match st.screenPublisher with
  | some _ =>
      { st with
        screenPublisher := none,
        screenPublished := false,
        dom := { st.dom with
          containerDisplay := "none",
          miniSelfDisplay := "none",
          mainPublisherDisplay := "block",
          publisherInMini := false,
          screenDivPresent := false } }
  | none =>
      let st1 : ScreenShareState := { st with btnDisabled := true }
      if !env.supported || env.extensionRequired then
        { st1 with btnDisabled := false }
      else
        initAndPublishScreen env st1

/-- The room's display mode as rendered: the screen container visible as
the main display means `ScreenMain`, otherwise the camera is the main
display (`CameraMain`). -/
def displayMode (st : ScreenShareState) : String :=
  if st.dom.containerDisplay == "none" then "CameraMain" else "ScreenMain"

/-- A toggle-on environment in which the capability check, publisher
initialisation and publish all succeed. -/
def successEnv (id : Nat) : ScreenEnv :=
  { supported := true, extensionRequired := false, initError := none,
    publishError := none, publisherId := id }

/-! ## Claims -/

/-- C1, counterexample.  The claim says a successful session-creation call
with no existing default makes the new id the default.  On a platform that
successfully creates session `"s1"`, the handler run from a state with no
default returns `"s1"` yet the default-session pointer is still not
`"s1"` (the handler never assigns the global). -/
theorem claim1_counterexample :
    (create_new_video_session platformOk serverCfg "t0"
        { DEFAULT_SESSION_ID := none }).1
      = .ok { session_id := "s1", api_key := "key", application_id := "app",
              created_at := some "t0" }
    ∧ ((create_new_video_session platformOk serverCfg "t0"
        { DEFAULT_SESSION_ID := none }).2).DEFAULT_SESSION_ID ≠ some "s1" :=
  ⟨by decide, by decide⟩

/-- C1, amended.  The `POST /api/sessions/create` handler never modifies
the default-session pointer in any state, for any platform behaviour: the
pointer is assigned exactly once, at module start-up. -/
theorem claim1_create_never_sets_default :
    ∀ (client : Vonage) (cfg : VonageConfig) (now : String) (st : ServerState),
      ((create_new_video_session client cfg now st).2).DEFAULT_SESSION_ID
        = st.DEFAULT_SESSION_ID := by
  intro client cfg now st
  unfold create_new_video_session
  cases create_default_video_session client <;> rfl

/-- C2, counterexample.  The claim says a failed check is encoded as
`healthy=false` (a degraded status).  In the state where the default
session is missing, the health handler still answers with status
`"healthy"`, so the status field never signals degradation. -/
theorem claim2_counterexample :
    ¬ ∀ (env : HealthEnv) (now : String) (r : ApplicationHealthResponse),
        env.DEFAULT_SESSION_ID = none →
        get_application_health_status env now = .ok r →
        r.status ≠ "healthy" := by
  intro h
  exact h { VONAGE_API_KEY := "k", VONAGE_APPLICATION_ID := "a",
            private_key_file_exists := true, DEFAULT_SESSION_ID := none,
            client_initialized := true } "t"
      { status := "healthy", timestamp := "t",
        environment_info :=
          { api_key_configured := "Yes", application_id_configured := "Yes",
            private_key_exists := "True", default_session_available := "No",
            vonage_client_status := "Initialized" },
        uptime := "available" }
      rfl rfl rfl

/-- C2, amended.  The health endpoint never throws and never returns an
HTTP error: in every state it returns a response; a failed check is
encoded inside `environment_info` (`"No"`, `"False"`, `"Failed"`) while
the top-level status stays `"healthy"` — there is no `healthy=false`
degraded status. -/
theorem claim2_health_amended :
    ∀ (env : HealthEnv) (now : String),
      (∃ r, get_application_health_status env now = .ok r) ∧
      ∀ r, get_application_health_status env now = .ok r →
        r.status = "healthy" ∧
        (env.DEFAULT_SESSION_ID = none →
          r.environment_info.default_session_available = "No") ∧
        (env.private_key_file_exists = false →
          r.environment_info.private_key_exists = "False") ∧
        (env.client_initialized = false →
          r.environment_info.vonage_client_status = "Failed") := by
  intro env now
  refine ⟨⟨_, rfl⟩, ?_⟩
  intro r hr
  unfold get_application_health_status at hr
  injection hr with hr
  subst hr
  refine ⟨rfl, ?_, ?_, ?_⟩ <;> intro h <;> simp [h, pyTruthyOptStr]

/-- The health response in the fully degraded state, used to instantiate
the health theorems concretely. -/
def healthRespBad : ApplicationHealthResponse :=
  { status := "healthy", timestamp := "t",
    environment_info :=
      { api_key_configured := "Yes", application_id_configured := "Yes",
        private_key_exists := "False", default_session_available := "No",
        vonage_client_status := "Failed" },
    uptime := "available" }

/-- C2, witness: the amended health theorem evaluated in the state with no
default session, a missing private key file and an uninitialised client. -/
theorem claim2_witness :
    (∃ r, get_application_health_status
        { VONAGE_API_KEY := "k", VONAGE_APPLICATION_ID := "a",
          private_key_file_exists := false, DEFAULT_SESSION_ID := none,
          client_initialized := false } "t" = .ok r) ∧
    healthRespBad.environment_info.default_session_available = "No" ∧
    healthRespBad.environment_info.private_key_exists = "False" ∧
    healthRespBad.environment_info.vonage_client_status = "Failed" :=
  ⟨(claim2_health_amended ⟨"k", "a", false, none, false⟩ "t").1,
   ((claim2_health_amended ⟨"k", "a", false, none, false⟩ "t").2
      healthRespBad rfl).2.1 rfl,
   ((claim2_health_amended ⟨"k", "a", false, none, false⟩ "t").2
      healthRespBad rfl).2.2.1 rfl,
   ((claim2_health_amended ⟨"k", "a", false, none, false⟩ "t").2
      healthRespBad rfl).2.2.2 rfl⟩

/-- C3: evaluating a screen-share start whose publisher initialisation
fails, and one whose publish fails, from the clean camera-main state.  In
both runs the room does NOT revert: the camera main view stays hidden
(`display:none`), the mini self-view and screen container stay visible,
the screen div is still attached, the rendered display mode is still
`ScreenMain`, and the error callback crashed on the undeclared
`screenPlaceholder` identifier.  `screenPublisher` is nulled, so the
sub-state is back at idle while the partial visible state remains. -/
theorem claim3_code_bug_evaluation :
    (toggleScreenShare
        { supported := true, extensionRequired := false,
          initError := some "permission denied", publishError := none,
          publisherId := 1 } initialScreenShareState
      = { dom := { containerDisplay := "block", mainPublisherDisplay := "none",
                   miniSelfDisplay := "block", screenDivPresent := true,
                   publisherInMini := true },
          screenPublisher := none, screenPublished := false,
          btnDisabled := false, crashed := true })
    ∧ (toggleScreenShare
        { supported := true, extensionRequired := false, initError := none,
          publishError := some "publish failed", publisherId := 1 }
        initialScreenShareState
      = { dom := { containerDisplay := "block", mainPublisherDisplay := "none",
                   miniSelfDisplay := "block", screenDivPresent := true,
                   publisherInMini := true },
          screenPublisher := none, screenPublished := false,
          btnDisabled := false, crashed := true })
    ∧ displayMode (toggleScreenShare
        { supported := true, extensionRequired := false,
          initError := some "permission denied", publishError := none,
          publisherId := 1 } initialScreenShareState) = "ScreenMain" :=
  ⟨by decide, by decide, by decide⟩

/-- C4: whenever the platform's trial token mint raises for a session id,
`GET /api/sessions/{id}` returns exactly the 404 "Video session not found
or invalid" error — never any other error class, regardless of the
platform failure's message. -/
theorem claim4_get_session_404 :
    ∀ (client : Vonage) (cfg : VonageConfig) (session_id msg : String),
      client.generate_client_token
          { session_id := session_id, role := "publisher", data := none }
        = .error msg →
      get_video_session_info client cfg session_id
        = .httpError 404 "Video session not found or invalid" := by
  intro client cfg sid msg h
  unfold get_video_session_info
  rw [h]

/-- C4, witness: a platform on which every call raises makes the lookup of
a fabricated id return the 404. -/
theorem claim4_witness :
    get_video_session_info platformDown serverCfg "fabricated-id"
      = .httpError 404 "Video session not found or invalid" :=
  claim4_get_session_404 platformDown serverCfg "fabricated-id" "boom" rfl

/-- C5: token generation with no `sessionId`: when no default session
exists the handler fails with the explicit 500 "No video session
available" for every platform (so before any platform call); when a
default exists, any successful response is bound to the default session
id. -/
theorem claim5_token_default_fallback :
    ∀ (username role : String) (st : ServerState),
      (st.DEFAULT_SESSION_ID = none →
        ∀ client, generate_user_access_token client username none role st
          = .httpError 500 "No video session available") ∧
      (∀ d, st.DEFAULT_SESSION_ID = some d → d ≠ "" →
        ∀ client r,
          generate_user_access_token client username none role st = .ok r →
          r.session_id = d) := by
  intro u rl st
  refine ⟨?_, ?_⟩
  · intro h client
    simp [generate_user_access_token, pyTruthyOptStr, h]
  · intro d hd hne client r hr
    have hb : (d == "") = false := beq_eq_false_iff_ne.mpr hne
    simp [generate_user_access_token, pyTruthyOptStr, hd, hb] at hr
    cases hcl : client.generate_client_token
        { session_id := d, role := rl, data := some ("username=" ++ u) } with
    | ok t =>
        rw [hcl] at hr
        injection hr with hr
        subst hr
        rfl
    | error e =>
        rw [hcl] at hr
        simp at hr

/-- C5, witness: with no default and no `sessionId` even a failing
platform yields the explicit 500; with default `"sess"` the successful
response is bound to `"sess"`. -/
theorem claim5_witness :
    (generate_user_access_token platformDown "User" none "publisher"
        { DEFAULT_SESSION_ID := none }
      = .httpError 500 "No video session available") ∧
    ({ token := "tok", username := "User", session_id := "sess",
       role := "publisher" } : UserTokenResponse).session_id = "sess" :=
  ⟨(claim5_token_default_fallback "User" "publisher" ⟨none⟩).1 rfl platformDown,
   (claim5_token_default_fallback "User" "publisher" ⟨some "sess"⟩).2
      "sess" rfl (by decide) platformOk
      { token := "tok", username := "User", session_id := "sess",
        role := "publisher" } rfl⟩

/-- C6, counterexample.  The claim says the placeholder is visible iff the
roster is empty.  After the event sequence "stream s1 created, stream s1
destroyed" the roster is empty again, yet the placeholder element is gone
(it was removed from the document and is never re-added). -/
theorem claim6_counterexample :
    (processRoomEvents [.streamCreated "s1", .streamDestroyed "s1"]
        initialRosterState).subscribers = []
    ∧ (processRoomEvents [.streamCreated "s1", .streamDestroyed "s1"]
        initialRosterState).placeholderPresent = false :=
  ⟨by decide, by decide⟩

/-- Folding roster events: the placeholder survives exactly when it was
present before and no stream-created event occurs in the sequence. -/
theorem processRoomEvents_placeholder (events : List RoomEvent) :
    ∀ st : RosterState,
      (processRoomEvents events st).placeholderPresent
        = (st.placeholderPresent && !hasStreamCreated events) := by
  induction events with
  | nil => intro st; simp [processRoomEvents, hasStreamCreated]
  | cons e t ih =>
      intro st
      cases e with
      | streamCreated id =>
          show (processRoomEvents t (onStreamCreated id st)).placeholderPresent = _
          rw [ih]
          simp [onStreamCreated, hasStreamCreated]
      | streamDestroyed id =>
          show (processRoomEvents t (onStreamDestroyed id st)).placeholderPresent = _
          rw [ih]
          simp [onStreamDestroyed, hasStreamCreated]

/-- C6, amended.  Starting from the page-load state, after any event
sequence the roster-empty placeholder is present iff the sequence contains
no stream-created event: it is removed by the first stream-created event
and never restored, so after the last remaining participant's stream is
destroyed the grid is empty but the placeholder stays hidden. -/
theorem claim6_amended :
    ∀ events : List RoomEvent,
      (processRoomEvents events initialRosterState).placeholderPresent
        = !hasStreamCreated events := by
  intro events
  rw [processRoomEvents_placeholder]
  simp [initialRosterState]

/-- C7, counterexample.  The claim says a pair of completed toggles leaves
the screen-publisher reference null from either starting state.  Starting
from the publishing state (reached by one successful toggle-on) and
running two further fully successful toggles restores the rendered display
mode to `ScreenMain`, but the screen-publisher reference is the live new
publisher, not null. -/
theorem claim7_counterexample :
    displayMode (toggleScreenShare (successEnv 2) (toggleScreenShare
        (successEnv 2) (toggleScreenShare (successEnv 1)
          initialScreenShareState))) = "ScreenMain"
    ∧ (toggleScreenShare (successEnv 2) (toggleScreenShare (successEnv 2)
        (toggleScreenShare (successEnv 1)
          initialScreenShareState))).screenPublisher ≠ none :=
  ⟨by decide, by decide⟩

/-- C7, amended.  With every asynchronous step succeeding: a toggle pair
started from idle returns the page exactly to the initial camera-main
state (display mode restored, screen-publisher reference null, screen div
removed); a toggle pair started from publishing restores the display mode
to `ScreenMain` with a live published screen publisher attached to its
div — not a null reference. -/
theorem claim7_amended :
    ∀ id₁ id₂ : Nat,
      (toggleScreenShare (successEnv id₂) (toggleScreenShare (successEnv id₁)
          initialScreenShareState) = initialScreenShareState) ∧
      (displayMode (toggleScreenShare (successEnv id₂) (toggleScreenShare
          (successEnv id₂) (toggleScreenShare (successEnv id₁)
            initialScreenShareState)))
        = displayMode (toggleScreenShare (successEnv id₁)
            initialScreenShareState) ∧
       (toggleScreenShare (successEnv id₂) (toggleScreenShare (successEnv id₂)
          (toggleScreenShare (successEnv id₁)
            initialScreenShareState))).screenPublisher = some id₂ ∧
       (toggleScreenShare (successEnv id₂) (toggleScreenShare (successEnv id₂)
          (toggleScreenShare (successEnv id₁)
            initialScreenShareState))).screenPublished = true ∧
       (toggleScreenShare (successEnv id₂) (toggleScreenShare (successEnv id₂)
          (toggleScreenShare (successEnv id₁)
            initialScreenShareState))).dom.screenDivPresent = true) := by
  intro id₁ id₂
  exact ⟨rfl, rfl, rfl, rfl, rfl⟩

/-- C8: the chat round trip.  A whitespace-only input changes nothing (in
particular no payload is handed to the relay); a non-empty input whose
relay succeeds appends exactly one transcript entry tagged local and
records exactly one relay call; a relayed echo arriving from the local
connection id is discarded, leaving the transcript with exactly that one
entry. -/
theorem claim8_chat_round_trip :
    ∀ (username localConn : String) (payload : Option ChatPayload)
      (st : ChatState),
      (jsTrim st.chatInput = "" →
        ∀ relay, sendMessage username relay st = st) ∧
      (jsTrim st.chatInput ≠ "" →
        (sendMessage username .ok st).transcript
          = st.transcript
            ++ [{ sender := username, text := jsTrim st.chatInput, isLocal := true }] ∧
        (sendMessage username .ok st).signalsSent
          = st.signalsSent
            ++ [{ sender := username, text := jsTrim st.chatInput }] ∧
        (onSignalChat localConn localConn payload
            (sendMessage username .ok st)).transcript
          = st.transcript
            ++ [{ sender := username, text := jsTrim st.chatInput, isLocal := true }]) := by
  intro u c p st
  constructor
  · intro h relay
    simp [sendMessage, h]
  · intro h
    have hb : (jsTrim st.chatInput == "") = false := beq_eq_false_iff_ne.mpr h
    refine ⟨?_, ?_, ?_⟩ <;>
      simp [sendMessage, onSignalChat, displayMessage, hb]

/-- C8, witness: sending from the whitespace-only input `"   "` is a
no-op, and sending `"hi"` followed by its echo from the local connection
leaves exactly one transcript entry tagged local. -/
theorem claim8_witness :
    (sendMessage "Alice" .ok
        { transcript := [], chatInput := "   ", signalsSent := [] }
      = { transcript := [], chatInput := "   ", signalsSent := [] }) ∧
    (onSignalChat "conn1" "conn1" (some { sender := "Alice", text := "hi" })
        (sendMessage "Alice" .ok
          { transcript := [], chatInput := "hi", signalsSent := [] })).transcript
      = [{ sender := "Alice", text := "hi", isLocal := true }] :=
  ⟨(claim8_chat_round_trip "Alice" "conn1" none
      ⟨[], "   ", []⟩).1 (by decide) .ok,
   ((claim8_chat_round_trip "Alice" "conn1" (some ⟨"Alice", "hi"⟩)
      ⟨[], "hi", []⟩).2 (by decide)).2.2⟩

/-- C9: the create-session route ignores the request body entirely and
always requests media mode `"routed"`: two platforms that agree on the
single options value `{media_mode := "routed"}` produce identical endpoint
behaviour for any two request bodies, however they differ on every other
media mode. -/
theorem claim9_media_mode_ignored :
    ∀ (client client' : Vonage) (cfg : VonageConfig) (now : String)
      (st : ServerState) (body body' : CreateSessionRequest),
      client.create_session { media_mode := "routed" }
        = client'.create_session { media_mode := "routed" } →
      handleCreateSessionRequest client cfg now st body
        = handleCreateSessionRequest client' cfg now st body' := by
  intro client client' cfg now st b b' h
  simp [handleCreateSessionRequest, create_new_video_session,
        create_default_video_session, h]

/-- C9, witness: a body asking for `"relayed"` on a platform honouring
every mode, and a body asking for `"p2p"` on a platform honouring only
`"routed"`, give the same response. -/
theorem claim9_witness :
    handleCreateSessionRequest platformOk serverCfg "t0"
        { DEFAULT_SESSION_ID := none } { media_mode := "relayed" }
      = handleCreateSessionRequest platformRoutedOnly serverCfg "t0"
          { DEFAULT_SESSION_ID := none } { media_mode := "p2p" } :=
  claim9_media_mode_ignored platformOk platformRoutedOnly serverCfg "t0"
    ⟨none⟩ ⟨"relayed"⟩ ⟨"p2p"⟩ rfl

/-- C10: every successful health response carries the constant status
`"healthy"`, whatever the combination of check outcomes — degradation
never reaches the status field. -/
theorem claim10_health_status_constant :
    ∀ (env : HealthEnv) (now : String) (r : ApplicationHealthResponse),
      get_application_health_status env now = .ok r → r.status = "healthy" := by
  intro env now r h
  unfold get_application_health_status at h
  injection h with h
  subst h
  rfl

/-- C10, witness: the response in the fully degraded state has status
`"healthy"`. -/
theorem claim10_witness : healthRespBad.status = "healthy" :=
  claim10_health_status_constant ⟨"k", "a", false, none, false⟩ "t"
    healthRespBad rfl

end VonageVideo
